import Mathlib

/-!
c-http-server: a shallow embedding of `server.c`.

The embedding follows `server.c` function by function.

Conventions.

* A C string is the list of its characters up to, and excluding, the
  terminating NUL; `strlen` is therefore the length of the list.  A byte buffer
  (file contents, the response handed to `send`) is a list of characters too.
* The length of a request line is a mathematical integer.  The `int` and
  `size_t` arithmetic of `process_http_header_request` is exact on every line
  shorter than `2^31` bytes, the range in which it is read.  The one wrap-around
  that is reachable inside that range, `strlen(request) - 4 - 9` on a line of
  fewer than 13 characters, is modelled explicitly: the length is negative
  there.
* The loop body of `request_handler` is given twice: `request_handler_body`
  with `content_length` and `response_length` as exact lengths, and
  `request_handler_body_int` with these variables as 32-bit `int`s.  The two
  agree when the opened file has fewer than `2^31 - 400` bytes.
* `malloc` is assumed to succeed and `free` is not traced.
* What a function obtains from its environment (the parsed request of libhttp,
  the file system, the result of `send`) is a parameter.
-/

namespace Server

/-! ## The C library functions used by `server.c` -/

/-- Ways in which a call can fail to return: a failed `assert` aborts the
process, and `undefined` stands for undefined behaviour (here: writing far
beyond an allocated block). -/
inductive Fault
  | assertion
  | undefined
  deriving DecidableEq, Repr

/-- `strstr(haystack, needle)`: the tail of `haystack` starting at the first
occurrence of `needle`, or `none` (NULL) when `needle` does not occur. -/
def strstr : List Char → List Char → Option (List Char)
  | [], needle => if needle = [] then some [] else none
  | c :: haystack, needle =>
    if needle.isPrefixOf (c :: haystack) then some (c :: haystack)
    else strstr haystack needle

/-- `strncmp(a, b, n) != 0` on C strings: the first `n` characters differ. -/
def strncmp_ne (a b : List Char) (n : Nat) : Bool :=
  a.take n != b.take n

/-- `strncpy(dst, src, n)`: the `n` characters written to `dst`: the first `n`
characters of `src`, padded with NUL when `src` is shorter. -/
def strncpy (src : List Char) (n : Nat) : List Char :=
  src.take n ++ List.replicate (n - src.length) (Char.ofNat 0)

/-- `strcasecmp(a, b) != 0`: the strings differ even when letter case is
ignored. -/
def strcasecmp_ne (a b : List Char) : Bool :=
  a.map Char.toLower != b.map Char.toLower

/-- `strlen`. -/
def strlen (s : List Char) : Nat := s.length

/-- `strcat(dst, src)`. -/
def strcat (dst src : List Char) : List Char := dst ++ src

/-- An argument of `sprintf`. -/
inductive Arg
  | d (n : Int)
  | s (str : List Char)

/-- The conversion `%d`. -/
def fmt_d (n : Int) : List Char :=
  if n < 0 then '-' :: Nat.toDigits 10 n.natAbs else Nat.toDigits 10 n.toNat

/-- `sprintf` restricted to the conversions `%d` and `%s`: the string written
to the buffer. -/
def sprintf : List Char → List Arg → List Char
  | [], _ => []
  | [c], _ => [c]
  | c :: k :: format, args =>
    if c = '%' then
      match args with
      | Arg.d n :: rest =>
        if k = 'd' then fmt_d n ++ sprintf format rest else c :: sprintf (k :: format) args
      | Arg.s str :: rest =>
        if k = 's' then str ++ sprintf format rest else c :: sprintf (k :: format) args
      | [] => c :: sprintf (k :: format) args
    else c :: sprintf (k :: format) args

/-- `memcpy(dst + off, src, n)` on a buffer whose first `off` bytes are `dst`:
the bytes of the buffer up to `off + n`. -/
def memcpy (dst : List Char) (off : Nat) (src : List Char) (n : Nat) : List Char :=
  dst.take off ++ src.take n

/-- An open stream: the bytes of the file and the current position. -/
structure FILE where
  data : List Char
  pos : Nat
  deriving DecidableEq

/-- `fseek(pfile, 0, SEEK_END)`. -/
def fseek_end (pfile : FILE) : FILE := { pfile with pos := pfile.data.length }

/-- `ftell`. -/
def ftell (pfile : FILE) : Nat := pfile.pos

/-- `rewind`. -/
def rewind (pfile : FILE) : FILE := { pfile with pos := 0 }

/-- `fread(content, 1, n, pfile)`: the bytes stored in `content`. -/
def fread (pfile : FILE) (n : Nat) : List Char := (pfile.data.drop pfile.pos).take n

/-! ## Constants of `server.c` -/

def HTTP_404_CONTENT : List Char :=
  "<html><head><title>404 Not Found</title></head><body><h1>404 Not Found</h1>The requested resource could not be found but may be available again in the future.<div style=\"color: #eeeeee; font-size: 8pt;\">Actually, it probably won't ever be available unless this is showing up because of a bug in your program. :(</div></html>".toList

def HTTP_501_CONTENT : List Char :=
  "<html><head><title>501 Not Implemented</title></head><body><h1>501 Not Implemented</h1>The server either does not recognise the request method, or it lacks the ability to fulfill the request.</body></html>".toList

def HTTP_200_STRING : List Char := "OK".toList
def HTTP_404_STRING : List Char := "Not Found".toList
def HTTP_501_STRING : List Char := "Not Implemented".toList

/-! ## `process_http_header_request` -/

/-- `process_http_header_request(request)`: `.ok none` is the return value
NULL, `.ok (some filename)` a returned file name. -/
def process_http_header_request (request : List Char) : Except Fault (Option (List Char)) :=
  -- Ensure our request type is correct...
  if strncmp_ne request "GET ".toList 4 then .ok none
  -- Ensure the function was called properly...
  else if (strstr request "\r".toList).isSome then .error .assertion
  else if (strstr request "\n".toList).isSome then .error .assertion
  else
    -- Find the length, minus "GET "(4) and " HTTP/1.1"(9)...
    let len : Int := (strlen request : Int) - 4 - 9
    -- a negative `len` reaches `strncpy` as a huge `size_t`
    if len < 0 then .error .undefined
    else
      -- Copy the filename portion to our new string...
      let filename := strncpy (request.drop 4) len.toNat
      -- Prevent a directory attack...
      if (strstr filename "..".toList).isSome then .ok none
      else .ok (some filename)

/-! ## `request_handler` -/

/-- The variables of one pass of the loop of `request_handler`, as they stand
when `send` is called, with the name handed to `fopen` (if `fopen` was called),
the bytes handed to `send`, and whether the pass ends in
`shutdown(fd, SHUT_RDWR); break`. -/
structure Iteration where
  fopen_arg : Option (List Char)
  response_code : Nat
  response_code_string : List Char
  content_type : List Char
  content_length : Nat
  content : List Char
  connection : List Char
  response_length : Nat
  sent : List Char
  terminate : Bool
  deriving DecidableEq

/-- The variables set by the resolution part of the loop body (lines 110-174). -/
structure Resolved where
  fopen_arg : Option (List Char)
  response_code : Nat
  response_code_string : List Char
  content_type : List Char
  content_length : Nat
  content : List Char
  deriving DecidableEq

/-- The `if`/`else if` chain of lines 145-164. -/
def content_type_of (filename : List Char) : List Char :=
  if (strstr filename ".html".toList).isSome then "text/html".toList
  else if (strstr filename ".css".toList).isSome then "text/css".toList
  else if (strstr filename ".jpg".toList).isSome then "image/jpeg".toList
  else if (strstr filename ".png".toList).isSome then "image/png".toList
  else "text/plain".toList

/-- Lines 110-174 of `request_handler`: `filename` is the result of
`process_http_header_request`, and `fopen name` is the content of the file that
`fopen(name, "rb")` opens, or `none` when it returns NULL.  `content_length` is
the exact length of the content here; `resolve_int` has it as an `int`. -/
def resolve (filename : Option (List Char)) (fopen : List Char → Option (List Char)) :
    Resolved :=
  match filename with
  | none =>
    { fopen_arg := none
      response_code := 501
      response_code_string := HTTP_501_STRING
      content_type := "text/html".toList
      content_length := strlen HTTP_501_CONTENT
      content := HTTP_501_CONTENT }
  | some filename =>
    let filename := if filename = "/".toList then "/index.html".toList else filename
    let filename2 := strcat "web".toList filename
    match fopen filename2 with
    | none =>
      { fopen_arg := some filename2
        response_code := 404
        response_code_string := HTTP_404_STRING
        content_type := "text/html".toList
        content_length := strlen HTTP_404_CONTENT
        content := HTTP_404_CONTENT }
    | some bytes =>
      let pfile : FILE := { data := bytes, pos := 0 }
      let pfile := fseek_end pfile
      let content_length := ftell pfile
      let pfile := rewind pfile
      { fopen_arg := some filename2
        response_code := 200
        response_code_string := HTTP_200_STRING
        content_type := content_type_of filename
        content_length := content_length
        content := fread pfile content_length }

/-- Lines 100-108: the value of `connection`, from
`temp = http_get_header(&http, "Connection")`. -/
def connection_of (temp : Option (List Char)) : List Char :=
  match temp with
  | none => "close".toList
  | some temp =>
    if strcasecmp_ne temp "Keep-Alive".toList then "close".toList else "Keep-Alive".toList

/-- One pass of the loop of `request_handler` after a successful `http_read`
(lines 88-200).  `requestH` is `http_get_status(&http)`, `temp` is
`http_get_header(&http, "Connection")`, `fopen` is the file system and `res` the
value returned by `send`. -/
def request_handler_body (requestH : List Char) (temp : Option (List Char))
    (fopen : List Char → Option (List Char)) (res : Int) : Except Fault Iteration :=
  match process_http_header_request requestH with
  | .error f => .error f
  | .ok filename =>
    let connection := connection_of temp
    let r := resolve filename fopen
    let response := sprintf
      "HTTP/1.1 %d %s\r\nContent-Type: %s\r\nContent-Length: %d\r\nConnection: %s\r\n\r\n".toList
      [.d r.response_code, .s r.response_code_string, .s r.content_type,
       .d r.content_length, .s connection]
    let response_length := strlen response + r.content_length
    let response := memcpy response (strlen response) r.content r.content_length
    .ok
      { fopen_arg := r.fopen_arg
        response_code := r.response_code
        response_code_string := r.response_code_string
        content_type := r.content_type
        content_length := r.content_length
        content := r.content
        connection := connection
        response_length := response_length
        sent := response.take response_length
        terminate := decide (res ≤ 0) || strcasecmp_ne connection "Keep-Alive".toList }

/-- The calls a thread makes that the claims speak about. -/
inductive Event
  | fopen (name : List Char)
  | send (fd : Int) (bytes : List Char)
  | shutdown_rdwr (fd : Int)
  | pthread_join (t : Nat)
  | close (fd : Int)
  | exit (status : Int)
  deriving DecidableEq

/-- `INT_MAX`. -/
def INT_MAX : Int := 2147483647

/-- The value stored in an `int` when a wider integer `n` is assigned to it:
`n` reduced modulo `2^32` into `-2^31 .. 2^31 - 1` (the conversion is
implementation-defined; this is the rule of gcc and clang). -/
def int_of_long (n : Int) : Int := (n + 2147483648) % 4294967296 - 2147483648

/-- The variables set by lines 110-174, `content_length` being an `int`. -/
structure ResolvedInt where
  fopen_arg : Option (List Char)
  response_code : Nat
  response_code_string : List Char
  content_type : List Char
  content_length : Int
  content : List Char
  deriving DecidableEq

/-- Lines 110-174 of `request_handler` with `int content_length`. -/
def resolve_int (filename : Option (List Char)) (fopen : List Char → Option (List Char)) :
    Except Fault ResolvedInt :=
  match filename with
  | none =>
    .ok
      { fopen_arg := none
        response_code := 501
        response_code_string := HTTP_501_STRING
        content_type := "text/html".toList
        content_length := int_of_long (strlen HTTP_501_CONTENT)
        content := HTTP_501_CONTENT }
  | some filename =>
    let filename := if filename = "/".toList then "/index.html".toList else filename
    let filename2 := strcat "web".toList filename
    match fopen filename2 with
    | none =>
      .ok
        { fopen_arg := some filename2
          response_code := 404
          response_code_string := HTTP_404_STRING
          content_type := "text/html".toList
          content_length := int_of_long (strlen HTTP_404_CONTENT)
          content := HTTP_404_CONTENT }
    | some bytes =>
      let pfile : FILE := { data := bytes, pos := 0 }
      let pfile := fseek_end pfile
      -- content_length = ftell(pfile): a `long` stored in an `int`
      let content_length := int_of_long (ftell pfile)
      let pfile := rewind pfile
      -- content = malloc(content_length): a negative `int` is a size above
      -- 2^63, malloc returns NULL and fread writes the file to it
      if content_length < 0 then .error .undefined
      else
        .ok
          { fopen_arg := some filename2
            response_code := 200
            response_code_string := HTTP_200_STRING
            content_type := content_type_of filename
            content_length := content_length
            content := fread pfile content_length.toNat }

/-- One pass of the loop of `request_handler` after a successful `http_read`
(lines 88-200), with `int content_length` and `int response_length`. -/
def request_handler_body_int (requestH : List Char) (temp : Option (List Char))
    (fopen : List Char → Option (List Char)) (res : Int) : Except Fault Iteration :=
  match process_http_header_request requestH with
  | .error f => .error f
  | .ok filename =>
    let connection := connection_of temp
    match resolve_int filename fopen with
    | .error f => .error f
    | .ok r =>
      -- response = malloc(content_length + 400): the sum is computed in `int`,
      -- and beyond INT_MAX it overflows (the wrapped, negative size makes
      -- malloc return NULL, to which sprintf then writes)
      if INT_MAX < r.content_length + 400 then .error .undefined
      else
        let response := sprintf
          "HTTP/1.1 %d %s\r\nContent-Type: %s\r\nContent-Length: %d\r\nConnection: %s\r\n\r\n".toList
          [.d r.response_code, .s r.response_code_string, .s r.content_type,
           .d r.content_length, .s connection]
        let response_length := int_of_long ((strlen response : Int) + r.content_length)
        let response := memcpy response (strlen response) r.content r.content_length.toNat
        .ok
          { fopen_arg := r.fopen_arg
            response_code := r.response_code
            response_code_string := r.response_code_string
            content_type := r.content_type
            content_length := r.content_length.toNat
            content := r.content
            connection := connection
            response_length := response_length.toNat
            sent := response.take response_length.toNat
            terminate := decide (res ≤ 0) || strcasecmp_ne connection "Keep-Alive".toList }

/-! ## `sigHandle` -/

/-- Modelled from the spec: `queue.h` is not among the sources.  A `queue_t` is
a collection of entries; it is modelled as the list of its entries in the order
`queue_dequeue` returns them, `queue_size` being its length. -/
abbrev queue_t (α : Type) := List α

/-- The globals `sock`, `thread_q`, `socket_q`. -/
structure Globals where
  sock : Int
  thread_q : queue_t Nat
  socket_q : queue_t Int
  deriving DecidableEq

/-- The loop of lines 207-212: while the queue is not empty, dequeue an entry
and shut it down.  Returns the calls made and the queue left. -/
def drain_socket_q : queue_t Int → List Event × queue_t Int
  -- queue_size(&socket_q) is 0: the loop is left
  | [] => ([], [])
  -- fd = queue_dequeue(&socket_q); shutdown(*fd, SHUT_RDWR)
  | fd :: socket_q =>
    let next := drain_socket_q socket_q
    (Event.shutdown_rdwr fd :: next.1, next.2)

/-- The loop of lines 215-220: while the queue is not empty, dequeue an entry
and join it. -/
def drain_thread_q : queue_t Nat → List Event × queue_t Nat
  -- queue_size(&thread_q) is 0: the loop is left
  | [] => ([], [])
  -- t = queue_dequeue(&thread_q); pthread_join(*t, NULL)
  | t :: thread_q =>
    let next := drain_thread_q thread_q
    (Event.pthread_join t :: next.1, next.2)

/-- `sigHandle`: the trace of its calls and the globals when `exit` is
called. -/
def sigHandle (g : Globals) : List Event × Globals :=
  let s := drain_socket_q g.socket_q
  let t := drain_thread_q g.thread_q
  (s.1 ++ t.1 ++ [Event.close g.sock, Event.exit 0],
   { sock := g.sock, thread_q := t.2, socket_q := s.2 })

/-- The file name that `process_http_header_request` extracts from a line of at
least 13 characters: the characters between the first four and the last
nine. -/
def path_of (request : List Char) : List Char :=
  (request.drop 4).take (request.length - 13)

set_option maxRecDepth 100000

/-! ## Lemmas on the library functions -/

theorem strstr_isSome_iff (haystack needle : List Char) :
    (strstr haystack needle).isSome = true ↔ needle <:+: haystack := by
  induction haystack with
  | nil =>
    by_cases h : needle = [] <;> simp [strstr, h]
  | cons c haystack ih =>
    rw [strstr, List.infix_cons_iff]
    by_cases h : needle.isPrefixOf (c :: haystack) = true
    · rw [if_pos h]
      simp only [Option.isSome_some, true_iff]
      exact Or.inl (List.isPrefixOf_iff_prefix.mp h)
    · rw [if_neg h, ih]
      constructor
      · exact Or.inr
      · rintro (h1 | h1)
        · exact absurd (List.isPrefixOf_iff_prefix.mpr h1) h
        · exact h1

theorem singleton_infix_iff (c : Char) (l : List Char) : [c] <:+: l ↔ c ∈ l := by
  constructor
  · rintro ⟨s, t, rfl⟩
    simp
  · intro h
    obtain ⟨s, t, rfl⟩ := List.append_of_mem h
    exact ⟨s, t, by simp⟩

theorem strstr_char_isSome_iff (haystack : List Char) (c : Char) :
    (strstr haystack [c]).isSome = true ↔ c ∈ haystack := by
  rw [strstr_isSome_iff, singleton_infix_iff]

theorem strncmp_ne_GET_iff (request : List Char) :
    strncmp_ne request "GET ".toList 4 = false ↔ "GET ".toList <+: request := by
  unfold strncmp_ne
  simp only [bne_eq_false_iff_eq]
  constructor
  · intro h
    have h2 : request.take 4 <+: request := List.take_prefix 4 request
    rw [h] at h2
    exact h2
  · rintro ⟨t, rfl⟩
    rfl

theorem strncpy_of_le (src : List Char) (n : Nat) (h : n ≤ src.length) :
    strncpy src n = src.take n := by
  unfold strncpy
  rw [Nat.sub_eq_zero_of_le h]
  simp

/-- On a line that starts with `"GET "`, holds no CR and no LF and has at least
13 characters, `process_http_header_request` returns NULL when the extracted
file name holds `".."` and the extracted file name otherwise. -/
theorem process_of_GET (request : List Char) (hget : "GET ".toList <+: request)
    (hcr : '\r' ∉ request) (hlf : '\n' ∉ request) (hlen : 13 ≤ request.length) :
    process_http_header_request request =
      if "..".toList <:+: path_of request then .ok none else .ok (some (path_of request)) := by
  have h1 : strncmp_ne request "GET ".toList 4 = false := (strncmp_ne_GET_iff request).mpr hget
  have h2 : (strstr request "\r".toList).isSome = false := by
    rw [Bool.eq_false_iff]
    intro h
    exact hcr ((strstr_char_isSome_iff request '\r').mp h)
  have h3 : (strstr request "\n".toList).isSome = false := by
    rw [Bool.eq_false_iff]
    intro h
    exact hlf ((strstr_char_isSome_iff request '\n').mp h)
  have h4 : ¬ ((strlen request : Int) - 4 - 9 < 0) := by
    unfold strlen
    omega
  have h5 : ((strlen request : Int) - 4 - 9).toNat = request.length - 13 := by
    unfold strlen
    omega
  have h6 : strncpy (request.drop 4) (request.length - 13) = path_of request := by
    apply strncpy_of_le
    rw [List.length_drop]
    omega
  unfold process_http_header_request
  simp only [h1, h2, h3, h4, h5, h6, Bool.false_eq_true, if_false]
  by_cases h : "..".toList <:+: path_of request
  · rw [if_pos h, if_pos ((strstr_isSome_iff _ _).mpr h)]
  · rw [if_neg h, if_neg (fun h7 => h ((strstr_isSome_iff _ _).mp h7))]

theorem path_of_GET_append (p v : List Char) (hv : v.length = 9) :
    path_of ("GET ".toList ++ p ++ v) = p := by
  unfold path_of
  have h : ("GET ".toList ++ p ++ v).length - 13 = p.length := by
    simp [hv]
  rw [h, List.append_assoc]
  simp

/-! ## The request line interpreter -/

/-- C9: a request line that does not start with the four characters `"GET "`
is rejected: `process_http_header_request` returns NULL, whatever else the line
contains (CR and LF included, since the method is tested before the
assertions). -/
theorem non_GET_rejected (request : List Char) (h : ¬ "GET ".toList <+: request) :
    process_http_header_request request = .ok none := by
  have h1 : strncmp_ne request "GET ".toList 4 = true := by
    rw [← Bool.not_eq_false]
    exact fun h2 => h ((strncmp_ne_GET_iff request).mp h2)
  unfold process_http_header_request
  rw [if_pos h1]

theorem non_GET_rejected_witness :
    (¬ "GET ".toList <+: "POST / HTTP/1.1".toList) ∧
      process_http_header_request "POST / HTTP/1.1".toList = .ok none :=
  ⟨by decide, non_GET_rejected "POST / HTTP/1.1".toList (by decide)⟩

/-- C7: for a path `p` that holds no `".."`, no CR and no LF, the line
`"GET " ++ p ++ " HTTP/1.1"` is accepted and the file name returned is exactly
`p`. -/
theorem well_formed_returns_path (p : List Char) (hdots : ¬ "..".toList <:+: p)
    (hcr : '\r' ∉ p) (hlf : '\n' ∉ p) :
    process_http_header_request ("GET ".toList ++ p ++ " HTTP/1.1".toList) = .ok (some p) := by
  have hget : "GET ".toList <+: "GET ".toList ++ p ++ " HTTP/1.1".toList := by
    rw [List.append_assoc]
    exact List.prefix_append _ _
  have h1 : '\r' ∉ "GET ".toList ++ p ++ " HTTP/1.1".toList := by
    simp only [List.mem_append, not_or]
    exact ⟨⟨by decide, hcr⟩, by decide⟩
  have h2 : '\n' ∉ "GET ".toList ++ p ++ " HTTP/1.1".toList := by
    simp only [List.mem_append, not_or]
    exact ⟨⟨by decide, hlf⟩, by decide⟩
  have h3 : 13 ≤ ("GET ".toList ++ p ++ " HTTP/1.1".toList).length := by
    simp
  rw [process_of_GET _ hget h1 h2 h3, path_of_GET_append p " HTTP/1.1".toList rfl,
    if_neg hdots]

theorem well_formed_returns_path_witness :
    (¬ "..".toList <:+: "/index.html".toList) ∧ '\r' ∉ "/index.html".toList ∧
      '\n' ∉ "/index.html".toList ∧
      process_http_header_request ("GET ".toList ++ "/index.html".toList ++ " HTTP/1.1".toList)
        = .ok (some "/index.html".toList) :=
  ⟨by decide, by decide, by decide,
    well_formed_returns_path "/index.html".toList (by decide) (by decide) (by decide)⟩

/-- C1: on a request line without CR and LF, when the path (the characters
between the four characters of the method token and the nine characters of the
version token, `"GET "` and `" HTTP/1.1"` on a well-formed line) holds `".."`,
the result is NULL; and a file name that `process_http_header_request` returns
never holds `".."`. -/
theorem traversal_rejected (request : List Char) (hcr : '\r' ∉ request)
    (hlf : '\n' ∉ request) :
    (∀ m p v : List Char, request = m ++ p ++ v → m.length = 4 → v.length = 9 →
        "..".toList <:+: p → process_http_header_request request = .ok none) ∧
    (∀ filename : List Char, process_http_header_request request = .ok (some filename) →
        ¬ "..".toList <:+: filename) := by
  constructor
  · intro m p v hreq hm hv hdots
    by_cases hget : "GET ".toList <+: request
    · have hmeq : m = "GET ".toList := by
        obtain ⟨t, ht⟩ := hget
        rw [hreq, List.append_assoc] at ht
        exact ((List.append_inj ht (by rw [hm]; rfl)).1).symm
      subst hmeq
      have hlen : 13 ≤ request.length := by
        rw [hreq]
        simp [hv]
      rw [process_of_GET request hget hcr hlf hlen, hreq, path_of_GET_append p v hv,
        if_pos hdots]
    · have h1 : strncmp_ne request "GET ".toList 4 = true := by
        rw [← Bool.not_eq_false]
        exact fun h2 => hget ((strncmp_ne_GET_iff request).mp h2)
      unfold process_http_header_request
      rw [if_pos h1]
  · intro filename hres hdots
    unfold process_http_header_request at hres
    simp only at hres
    split_ifs at hres with h1 h2 h3 h4 h5
    · cases hres
    · cases hres
    · simp only [Except.ok.injEq, Option.some.injEq] at hres
      rw [hres] at h5
      exact h5 ((strstr_isSome_iff _ _).mpr hdots)

theorem traversal_rejected_witness :
    '\r' ∉ "GET /../secret HTTP/1.1".toList ∧ '\n' ∉ "GET /../secret HTTP/1.1".toList ∧
      process_http_header_request "GET /../secret HTTP/1.1".toList = .ok none :=
  ⟨by decide, by decide,
    (traversal_rejected "GET /../secret HTTP/1.1".toList (by decide) (by decide)).1
      "GET ".toList "/../secret".toList " HTTP/1.1".toList rfl rfl rfl (by decide)⟩

/-- C8 (evaluation): the line `GET /index.html`, which holds no CR or LF and
does not end with the version token, is not rejected: the file name `/i` is
returned, the line cut by nine characters.  On the line `GET /`, shorter than
13 characters, the computed length is negative and the copy has undefined
behaviour. -/
theorem malformed_line_not_rejected :
    process_http_header_request "GET /index.html".toList = .ok (some "/i".toList) ∧
      process_http_header_request "GET /".toList = .error Fault.undefined := by
  constructor <;> rfl

/-! ## Lemmas on the loop body -/

theorem fmt_d_natCast (n : Nat) : fmt_d (n : Int) = Nat.toDigits 10 n := by
  unfold fmt_d
  rw [if_neg (by omega)]
  simp

theorem sprintf_response (code len : Int) (phrase type connection : List Char) :
    sprintf
      "HTTP/1.1 %d %s\r\nContent-Type: %s\r\nContent-Length: %d\r\nConnection: %s\r\n\r\n".toList
      [.d code, .s phrase, .s type, .d len, .s connection] =
    "HTTP/1.1 ".toList ++ fmt_d code ++ " ".toList ++ phrase ++ "\r\nContent-Type: ".toList ++
      type ++ "\r\nContent-Length: ".toList ++ fmt_d len ++ "\r\nConnection: ".toList ++
      connection ++ "\r\n\r\n".toList := by
  simp [sprintf]

theorem send_bytes (header content : List Char) :
    (memcpy header (strlen header) content content.length).take (strlen header + content.length)
      = header ++ content := by
  unfold memcpy strlen
  simp

theorem resolve_content_length (filename : Option (List Char))
    (fopen : List Char → Option (List Char)) :
    (resolve filename fopen).content_length = (resolve filename fopen).content.length := by
  unfold resolve
  cases filename with
  | none => rfl
  | some f =>
    simp only
    cases fopen (strcat "web".toList (if f = "/".toList then "/index.html".toList else f)) with
    | none => rfl
    | some bytes => simp [fread, rewind, fseek_end, ftell]

theorem resolve_content_of_open (path bytes : List Char)
    (fopen : List Char → Option (List Char))
    (h : fopen ("web".toList ++ (if path = "/".toList then "/index.html".toList else path))
      = some bytes) :
    (resolve (some path) fopen).content = bytes := by
  unfold resolve
  simp only [strcat, h]
  simp [fread, rewind, fseek_end, ftell]

theorem request_handler_body_ok (requestH : List Char) (temp : Option (List Char))
    (fopen : List Char → Option (List Char)) (res : Int) (filename : Option (List Char))
    (h : process_http_header_request requestH = .ok filename) :
    request_handler_body requestH temp fopen res = .ok
      { fopen_arg := (resolve filename fopen).fopen_arg
        response_code := (resolve filename fopen).response_code
        response_code_string := (resolve filename fopen).response_code_string
        content_type := (resolve filename fopen).content_type
        content_length := (resolve filename fopen).content.length
        content := (resolve filename fopen).content
        connection := connection_of temp
        response_length :=
          ("HTTP/1.1 ".toList ++ Nat.toDigits 10 (resolve filename fopen).response_code ++
            " ".toList ++ (resolve filename fopen).response_code_string ++
            "\r\nContent-Type: ".toList ++ (resolve filename fopen).content_type ++
            "\r\nContent-Length: ".toList ++
            Nat.toDigits 10 (resolve filename fopen).content.length ++
            "\r\nConnection: ".toList ++ connection_of temp ++ "\r\n\r\n".toList).length +
            (resolve filename fopen).content.length
        sent :=
          "HTTP/1.1 ".toList ++ Nat.toDigits 10 (resolve filename fopen).response_code ++
            " ".toList ++ (resolve filename fopen).response_code_string ++
            "\r\nContent-Type: ".toList ++ (resolve filename fopen).content_type ++
            "\r\nContent-Length: ".toList ++
            Nat.toDigits 10 (resolve filename fopen).content.length ++
            "\r\nConnection: ".toList ++ connection_of temp ++ "\r\n\r\n".toList ++
            (resolve filename fopen).content
        terminate := decide (res ≤ 0) || strcasecmp_ne (connection_of temp) "Keep-Alive".toList } := by
  unfold request_handler_body
  rw [h]
  simp only [sprintf_response, fmt_d_natCast, resolve_content_length, send_bytes]
  rfl

theorem connection_of_cases (temp : Option (List Char)) :
    connection_of temp = "Keep-Alive".toList ∨ connection_of temp = "close".toList := by
  unfold connection_of
  cases temp with
  | none => exact Or.inr rfl
  | some t =>
    simp only
    split_ifs
    · exact Or.inr rfl
    · exact Or.inl rfl

theorem resolve_fopen_arg (path : List Char) (fopen : List Char → Option (List Char)) :
    (resolve (some path) fopen).fopen_arg =
      some ("web".toList ++ (if path = "/".toList then "/index.html".toList else path)) := by
  unfold resolve
  simp only [strcat]
  cases fopen ("web".toList ++ (if path = "/".toList then "/index.html".toList else path))
    <;> rfl

theorem resolve_content_of_fopen_arg (filename : Option (List Char))
    (fopen : List Char → Option (List Char)) (name bytes : List Char)
    (hname : (resolve filename fopen).fopen_arg = some name) (hopen : fopen name = some bytes) :
    (resolve filename fopen).content = bytes := by
  cases filename with
  | none => cases hname
  | some path =>
    rw [resolve_fopen_arg, Option.some.injEq] at hname
    rw [← hname] at hopen
    exact resolve_content_of_open path bytes fopen hopen

/-! ## Lemmas on the loop body with `int` variables -/

theorem int_of_long_of_lt (n : Int) (h0 : 0 ≤ n) (h1 : n < 2147483648) :
    int_of_long n = n := by
  unfold int_of_long
  omega

theorem strlen_HTTP_501_CONTENT : strlen HTTP_501_CONTENT = 205 := by rfl

theorem strlen_HTTP_404_CONTENT : strlen HTTP_404_CONTENT = 324 := by rfl

theorem length_toDigits_le (n : Nat) (h : n < 10 ^ 10) : (Nat.toDigits 10 n).length ≤ 10 :=
  Nat.toDigitsCore_length 10 (by decide) (n + 1) n 10 h (by decide)

theorem resolve_content_length_le (filename : Option (List Char))
    (fopen : List Char → Option (List Char))
    (hsize : ∀ name bytes, (resolve filename fopen).fopen_arg = some name →
      fopen name = some bytes → bytes.length < 2147483248) :
    (resolve filename fopen).content_length < 2147483248 := by
  cases filename with
  | none => exact lt_of_eq_of_lt strlen_HTTP_501_CONTENT (by decide)
  | some path =>
    have harg := resolve_fopen_arg path fopen
    cases hopen : fopen ("web".toList ++
        (if path = "/".toList then "/index.html".toList else path)) with
    | none =>
      unfold resolve
      simp only [strcat, hopen]
      exact lt_of_eq_of_lt strlen_HTTP_404_CONTENT (by decide)
    | some bytes =>
      have hlt := hsize _ bytes harg hopen
      unfold resolve
      simp only [strcat, hopen]
      exact hlt

theorem resolve_int_of_small (filename : Option (List Char))
    (fopen : List Char → Option (List Char))
    (hsize : ∀ name bytes, (resolve filename fopen).fopen_arg = some name →
      fopen name = some bytes → bytes.length < 2147483248) :
    resolve_int filename fopen = .ok
      { fopen_arg := (resolve filename fopen).fopen_arg
        response_code := (resolve filename fopen).response_code
        response_code_string := (resolve filename fopen).response_code_string
        content_type := (resolve filename fopen).content_type
        content_length := ((resolve filename fopen).content_length : Int)
        content := (resolve filename fopen).content } := by
  cases filename with
  | none =>
    unfold resolve_int resolve
    simp only [strlen_HTTP_501_CONTENT]
    rw [int_of_long_of_lt _ (by decide) (by decide)]
  | some path =>
    have harg := resolve_fopen_arg path fopen
    cases hopen : fopen ("web".toList ++
        (if path = "/".toList then "/index.html".toList else path)) with
    | none =>
      unfold resolve_int resolve
      simp only [strcat, hopen, strlen_HTTP_404_CONTENT]
      rw [int_of_long_of_lt _ (by decide) (by decide)]
    | some bytes =>
      have hlt := hsize _ bytes harg hopen
      have hint : int_of_long (bytes.length : Int) = (bytes.length : Int) :=
        int_of_long_of_lt _ (by omega) (by omega)
      unfold resolve_int resolve
      simp only [strcat, hopen, ftell, fseek_end, rewind, hint]
      rw [if_neg (by omega)]
      simp

theorem content_type_of_length_le (filename : List Char) :
    (content_type_of filename).length ≤ 10 := by
  unfold content_type_of
  split_ifs <;> decide

theorem resolve_header_fields_le (filename : Option (List Char))
    (fopen : List Char → Option (List Char)) :
    (resolve filename fopen).response_code < 1000 ∧
      (resolve filename fopen).response_code_string.length ≤ 15 ∧
      (resolve filename fopen).content_type.length ≤ 10 := by
  cases filename with
  | none =>
    unfold resolve
    simp only
    exact ⟨by decide, by decide, by decide⟩
  | some path =>
    cases hopen : fopen ("web".toList ++
        (if path = "/".toList then "/index.html".toList else path)) with
    | none =>
      unfold resolve
      simp only [strcat, hopen]
      exact ⟨by decide, by decide, by decide⟩
    | some bytes =>
      unfold resolve
      simp only [strcat, hopen]
      exact ⟨by decide, by decide, content_type_of_length_le _⟩

theorem connection_of_length_le (temp : Option (List Char)) :
    (connection_of temp).length ≤ 10 := by
  rcases connection_of_cases temp with h | h <;> rw [h] <;> decide

theorem strlen_sprintf_le (code len : Nat) (phrase type connection : List Char)
    (h1 : code < 1000) (h2 : len < 4294967296) (h3 : phrase.length ≤ 15)
    (h4 : type.length ≤ 10) (h5 : connection.length ≤ 10) :
    strlen (sprintf
      "HTTP/1.1 %d %s\r\nContent-Type: %s\r\nContent-Length: %d\r\nConnection: %s\r\n\r\n".toList
      [.d code, .s phrase, .s type, .d len, .s connection]) ≤ 400 := by
  have h6 := length_toDigits_le code (by omega)
  have h7 := length_toDigits_le len (by omega)
  rw [sprintf_response, fmt_d_natCast, fmt_d_natCast]
  simp only [strlen, List.length_append]
  have e1 : "HTTP/1.1 ".toList.length = 9 := rfl
  have e2 : " ".toList.length = 1 := rfl
  have e3 : "\r\nContent-Type: ".toList.length = 16 := rfl
  have e4 : "\r\nContent-Length: ".toList.length = 18 := rfl
  have e5 : "\r\nConnection: ".toList.length = 14 := rfl
  have e6 : "\r\n\r\n".toList.length = 4 := rfl
  omega

theorem strlen_response_le (filename : Option (List Char))
    (fopen : List Char → Option (List Char)) (temp : Option (List Char))
    (hlen : (resolve filename fopen).content_length < 2147483248) :
    strlen (sprintf
      "HTTP/1.1 %d %s\r\nContent-Type: %s\r\nContent-Length: %d\r\nConnection: %s\r\n\r\n".toList
      [.d (resolve filename fopen).response_code,
       .s (resolve filename fopen).response_code_string,
       .s (resolve filename fopen).content_type,
       .d (resolve filename fopen).content_length, .s (connection_of temp)]) ≤ 400 := by
  obtain ⟨h1, h2, h3⟩ := resolve_header_fields_le filename fopen
  exact strlen_sprintf_le _ _ _ _ _ h1 (by omega) h2 h3 (connection_of_length_le temp)

/-- The loop body with `int` variables agrees with `request_handler_body`
whenever the file that `fopen` opens, if any, has fewer than `2^31 - 400`
bytes. -/
theorem request_handler_body_int_eq (requestH : List Char) (temp : Option (List Char))
    (fopen : List Char → Option (List Char)) (res : Int) (filename : Option (List Char))
    (h : process_http_header_request requestH = .ok filename)
    (hsize : ∀ name bytes, (resolve filename fopen).fopen_arg = some name →
      fopen name = some bytes → bytes.length < 2147483248) :
    request_handler_body_int requestH temp fopen res =
      request_handler_body requestH temp fopen res := by
  have hlen := resolve_content_length_le filename fopen hsize
  have hhead := strlen_response_le filename fopen temp hlen
  unfold request_handler_body_int request_handler_body
  rw [h]
  simp only [resolve_int_of_small filename fopen hsize, Int.toNat_ofNat]
  rw [if_neg (by unfold INT_MAX; omega)]
  rw [int_of_long_of_lt _ (by omega) (by omega)]
  rfl

theorem int_of_long_natCast (n : Nat) (h : n < 4294967296 + 2147483648) :
    int_of_long (n : Int) =
      if n < 2147483648 then (n : Int) else (n : Int) - 4294967296 := by
  unfold int_of_long
  split_ifs <;> omega

/-- A regular file of `2^31 - 400` up to `2^32 - 1` bytes: `content_length` is
negative, or `content_length + 400` overflows, and the pass does not reach
`send`. -/
theorem request_handler_body_int_of_large (requestH : List Char)
    (temp : Option (List Char)) (fopen : List Char → Option (List Char)) (res : Int)
    (path bytes : List Char)
    (h : process_http_header_request requestH = .ok (some path))
    (hopen : fopen ("web".toList ++ (if path = "/".toList then "/index.html".toList else path))
      = some bytes)
    (h1 : 2147483248 ≤ bytes.length) (h2 : bytes.length < 4294967296) :
    request_handler_body_int requestH temp fopen res = .error Fault.undefined := by
  unfold request_handler_body_int
  rw [h]
  unfold resolve_int
  simp only [strcat, hopen, ftell, fseek_end, rewind, int_of_long_natCast bytes.length (by omega)]
  by_cases hlt : bytes.length < 2147483648
  · rw [if_pos hlt, if_neg (by omega)]
    simp only
    rw [if_pos (by unfold INT_MAX; omega)]
  · rw [if_neg hlt, if_pos (by omega)]

/-- A regular file of `2^32 + k` bytes with `k < 2^31 - 400`: `content_length`
is `k`, and the response announces and carries the first `k` bytes of the
file. -/
theorem request_handler_body_int_of_wrapped (requestH : List Char)
    (temp : Option (List Char)) (fopen : List Char → Option (List Char)) (res : Int)
    (path bytes : List Char) (k : Nat)
    (h : process_http_header_request requestH = .ok (some path))
    (hopen : fopen ("web".toList ++ (if path = "/".toList then "/index.html".toList else path))
      = some bytes)
    (h1 : bytes.length = 4294967296 + k) (h2 : k < 2147483248) :
    Except.map (fun it => (it.response_code, it.content_length, it.content, it.sent))
      (request_handler_body_int requestH temp fopen res) =
    .ok (200, k, bytes.take k,
      sprintf
        "HTTP/1.1 %d %s\r\nContent-Type: %s\r\nContent-Length: %d\r\nConnection: %s\r\n\r\n".toList
        [.d 200, .s HTTP_200_STRING,
         .s (content_type_of (if path = "/".toList then "/index.html".toList else path)),
         .d k, .s (connection_of temp)] ++ bytes.take k) := by
  have hint : int_of_long (bytes.length : Int) = (k : Int) := by
    rw [int_of_long_natCast bytes.length (by omega), if_neg (by omega)]
    omega
  have hhead := strlen_sprintf_le 200 k HTTP_200_STRING
    (content_type_of (if path = "/".toList then "/index.html".toList else path))
    (connection_of temp) (by decide) (by omega) (by decide) (content_type_of_length_le _)
    (connection_of_length_le temp)
  simp only [Nat.cast_ofNat] at hhead
  have htake : (bytes.take k).length = k := by
    rw [List.length_take]
    omega
  unfold request_handler_body_int
  rw [h]
  unfold resolve_int
  simp only [strcat, hopen, ftell, fseek_end, rewind, hint]
  rw [if_neg (by omega)]
  simp only [Int.toNat_ofNat, fread, List.drop_zero]
  rw [if_neg (by unfold INT_MAX; omega)]
  simp only [Except.map, Nat.cast_ofNat]
  rw [int_of_long_of_lt _ (by omega) (by omega)]
  have hsend := send_bytes
    (sprintf
      "HTTP/1.1 %d %s\r\nContent-Type: %s\r\nContent-Length: %d\r\nConnection: %s\r\n\r\n".toList
      [.d 200, .s HTTP_200_STRING,
       .s (content_type_of (if path = "/".toList then "/index.html".toList else path)),
       .d k, .s (connection_of temp)]) (bytes.take k)
  rw [htake] at hsend
  rw [show ((strlen (sprintf
      "HTTP/1.1 %d %s\r\nContent-Type: %s\r\nContent-Length: %d\r\nConnection: %s\r\n\r\n".toList
      [.d 200, .s HTTP_200_STRING,
       .s (content_type_of (if path = "/".toList then "/index.html".toList else path)),
       .d k, .s (connection_of temp)]) : Int) + (k : Int)).toNat = strlen (sprintf
      "HTTP/1.1 %d %s\r\nContent-Type: %s\r\nContent-Length: %d\r\nConnection: %s\r\n\r\n".toList
      [.d 200, .s HTTP_200_STRING,
       .s (content_type_of (if path = "/".toList then "/index.html".toList else path)),
       .d k, .s (connection_of temp)]) + k from by omega]
  rw [hsend]

/-! ## The connection worker -/

/-- What the loop body does guarantee about the bytes it sends: when the request
line interpreter returns and the file that `fopen` opens, if any, has fewer than
`2^31 - 400` bytes, the bytes handed to `send` are
`HTTP/1.1 <code> <phrase>\r\nContent-Type: <type>\r\nContent-Length: <n>\r\n`
`Connection: <conn>\r\n\r\n` followed by the body, `<n>` being the decimal
rendering of the length of the body; the length handed to `send` is the length
of these bytes; and when `fopen` opened a file the body is the content of that
file. -/
theorem response_bytes_in_range (requestH : List Char) (temp : Option (List Char))
    (fopen : List Char → Option (List Char)) (res : Int) (filename : Option (List Char))
    (h : process_http_header_request requestH = .ok filename)
    (hsize : ∀ name bytes, (resolve filename fopen).fopen_arg = some name →
      fopen name = some bytes → bytes.length < 2147483248) :
    ∃ it, request_handler_body_int requestH temp fopen res = .ok it ∧
      it.sent =
        "HTTP/1.1 ".toList ++ Nat.toDigits 10 it.response_code ++ " ".toList ++
          it.response_code_string ++ "\r\nContent-Type: ".toList ++ it.content_type ++
          "\r\nContent-Length: ".toList ++ Nat.toDigits 10 it.content.length ++
          "\r\nConnection: ".toList ++ it.connection ++ "\r\n\r\n".toList ++ it.content ∧
      it.content_length = it.content.length ∧
      it.response_length = it.sent.length ∧
      (∀ name bytes, it.fopen_arg = some name → fopen name = some bytes →
        it.content = bytes) := by
  rw [request_handler_body_int_eq requestH temp fopen res filename h hsize]
  refine ⟨_, request_handler_body_ok requestH temp fopen res filename h, rfl, rfl, ?_, ?_⟩
  · simp only [List.length_append]
  · intro name bytes hname hopen
    exact resolve_content_of_fopen_arg filename fopen name bytes hname hopen

/-- C4 (evaluation): on `GET /big.bin HTTP/1.1`, when `web/big.bin` is a regular
file of `2^31 - 400 = 2147483248` bytes, the `int` sum `content_length + 400`
that sizes the response buffer overflows and the pass never reaches `send`; when
it is a file of `2^32 + 5 = 4294967301` bytes, `content_length` is 5 and the
response that is sent announces `Content-Length: 5` and carries the first five
bytes of the file. -/
theorem large_file_not_served :
    request_handler_body_int "GET /big.bin HTTP/1.1".toList none
      (fun name =>
        if name = "web/big.bin".toList then some (List.replicate 2147483248 'x') else none) 1
      = .error Fault.undefined ∧
    Except.map (fun it => (it.response_code, it.content_length, it.content, it.sent))
      (request_handler_body_int "GET /big.bin HTTP/1.1".toList none
        (fun name =>
          if name = "web/big.bin".toList then some (List.replicate 4294967301 'x') else none) 1)
      = .ok (200, 5, "xxxxx".toList,
          "HTTP/1.1 200 OK\r\nContent-Type: text/plain\r\nContent-Length: 5\r\nConnection: close\r\n\r\nxxxxx".toList) := by
  have hreq : process_http_header_request "GET /big.bin HTTP/1.1".toList
      = .ok (some "/big.bin".toList) := rfl
  have hname : "web".toList ++
      (if "/big.bin".toList = "/".toList then "/index.html".toList else "/big.bin".toList)
      = "web/big.bin".toList := by decide
  constructor
  · refine request_handler_body_int_of_large _ none _ 1 "/big.bin".toList
      (List.replicate 2147483248 'x') hreq ?_ ?_ ?_
    · exact if_pos hname
    · rw [List.length_replicate]
    · rw [List.length_replicate]
      decide
  · rw [request_handler_body_int_of_wrapped _ none _ 1 "/big.bin".toList
      (List.replicate 4294967301 'x') 5 hreq (if_pos hname)
      (by rw [List.length_replicate]) (by decide)]
    rw [List.take_replicate]
    rfl

/-- C2 (evaluation): on the request line `GET -old/secret.txt HTTP/1.1` the
name handed to `fopen` is `web-old/secret.txt`, which does not begin with
`web/`: the file is outside the directory `web`, and when it exists it is served
with status 200. -/
theorem fopen_outside_root :
    Except.map (fun it => (it.fopen_arg, it.response_code, it.content))
      (request_handler_body "GET -old/secret.txt HTTP/1.1".toList none
        (fun name => if name = "web-old/secret.txt".toList then some "key".toList else none) 1)
      = .ok (some "web-old/secret.txt".toList, 200, "key".toList) ∧
    ¬ "web/".toList <+: "web-old/secret.txt".toList := by
  refine ⟨rfl, by decide⟩

/-- C10 (evaluation): the content type is chosen by the first of `.html`,
`.css`, `.jpg`, `.png` that occurs anywhere in the file name, not by its
extension: `/index.html.bak`, whose extension is `.bak`, is served as
`text/html`, and `/style.css.png`, whose extension is `.png`, as `text/css`. -/
theorem content_type_by_substring :
    Except.map (fun it => (it.response_code, it.content_type))
      (request_handler_body "GET /index.html.bak HTTP/1.1".toList none
        (fun name => if name = "web/index.html.bak".toList then some "old".toList else none) 1)
      = .ok (200, "text/html".toList) ∧
    Except.map (fun it => (it.response_code, it.content_type))
      (request_handler_body "GET /style.css.png HTTP/1.1".toList none
        (fun name => if name = "web/style.css.png".toList then some "img".toList else none) 1)
      = .ok (200, "text/css".toList) := by
  constructor <;> rfl

/-! ## The shutdown coordinator -/

theorem drain_socket_q_eq (socket_q : queue_t Int) :
    drain_socket_q socket_q = (socket_q.map Event.shutdown_rdwr, []) := by
  induction socket_q with
  | nil => rfl
  | cons fd q ih => rw [drain_socket_q, ih]; rfl

theorem drain_thread_q_eq (thread_q : queue_t Nat) :
    drain_thread_q thread_q = (thread_q.map Event.pthread_join, []) := by
  induction thread_q with
  | nil => rfl
  | cons t q ih => rw [drain_thread_q, ih]; rfl

theorem sigHandle_eq (g : Globals) :
    sigHandle g =
      (g.socket_q.map Event.shutdown_rdwr ++ g.thread_q.map Event.pthread_join ++
          [Event.close g.sock, Event.exit 0],
        { sock := g.sock, thread_q := [], socket_q := [] }) := by
  unfold sigHandle
  simp only [drain_socket_q_eq, drain_thread_q_eq]

/-- C6: `sigHandle` shuts down every entry of `socket_q`, then joins every
entry of `thread_q`, then closes the listening socket, then calls `exit(0)`:
its trace is exactly these calls in this order, one per entry; both queues are
empty when `exit` is called; every entry is shut down, respectively joined, as
often as it is registered; and no `shutdown` comes after a `pthread_join`. -/
theorem shutdown_order (g : Globals) :
    sigHandle g =
      (g.socket_q.map Event.shutdown_rdwr ++ g.thread_q.map Event.pthread_join ++
          [Event.close g.sock, Event.exit 0],
        { sock := g.sock, thread_q := [], socket_q := [] }) ∧
    (∀ fd, (sigHandle g).1.count (Event.shutdown_rdwr fd) = g.socket_q.count fd) ∧
    (∀ t, (sigHandle g).1.count (Event.pthread_join t) = g.thread_q.count t) ∧
    (∀ pre post, (sigHandle g).1 = pre ++ post →
      ∀ t, Event.pthread_join t ∈ pre → ∀ fd, Event.shutdown_rdwr fd ∉ post) := by
  refine ⟨sigHandle_eq g, ?_, ?_, ?_⟩
  · intro fd
    rw [sigHandle_eq]
    simp only [List.count_append]
    have h1 : (g.socket_q.map Event.shutdown_rdwr).count (Event.shutdown_rdwr fd)
        = g.socket_q.count fd :=
      List.count_map_of_injective _ _ (fun a b hab => by injection hab) fd
    have h2 : (g.thread_q.map Event.pthread_join).count (Event.shutdown_rdwr fd) = 0 := by
      rw [List.count_eq_zero]
      simp
    have h3 : [Event.close g.sock, Event.exit 0].count (Event.shutdown_rdwr fd) = 0 := by
      rw [List.count_eq_zero]
      simp
    rw [h1, h2, h3]
    omega
  · intro t
    rw [sigHandle_eq]
    simp only [List.count_append]
    have h1 : (g.thread_q.map Event.pthread_join).count (Event.pthread_join t)
        = g.thread_q.count t :=
      List.count_map_of_injective _ _ (fun a b hab => by injection hab) t
    have h2 : (g.socket_q.map Event.shutdown_rdwr).count (Event.pthread_join t) = 0 := by
      rw [List.count_eq_zero]
      simp
    have h3 : [Event.close g.sock, Event.exit 0].count (Event.pthread_join t) = 0 := by
      rw [List.count_eq_zero]
      simp
    rw [h1, h2, h3]
    omega
  · intro pre post hsplit t ht fd hfd
    rw [sigHandle_eq] at hsplit
    simp only [List.append_assoc] at hsplit
    rcases List.append_eq_append_iff.mp hsplit.symm with ⟨a, ha, -⟩ | ⟨c, -, hd⟩
    · have : Event.pthread_join t ∈ g.socket_q.map Event.shutdown_rdwr := by
        rw [ha]
        exact List.mem_append_left _ ht
      simp at this
    · have : Event.shutdown_rdwr fd ∈
          g.thread_q.map Event.pthread_join ++ [Event.close g.sock, Event.exit 0] := by
        rw [hd]
        exact List.mem_append_right _ hfd
      simp at this

end Server
